import Mathlib

/-!
Shallow embedding of the rbac-shield authorization core.

Sources embedded here:
- `checkPermission` (src/checkPermission.ts): the wildcard-aware permission
  matcher.
- `guard` and `match` (src/guards.ts): the stateless action guard and the
  first-match-wins dispatcher (`match` is exported to the provider module
  under the name `matchPermission`).
- `createRBAC` (src/RBACProvider.tsx): `processTenants`, `setAuth`,
  `switchTenant`, `reset`, `checkAccess`, and the query hooks `useHasRole`,
  `useHasPermission`, `useHasAnyPermission`, `useHasAllPermissions`,
  `useAccess`, `usePermissionMatch`.

Conventions of the embedding:
- JavaScript string arrays become `List String`; record objects keyed by
  strings become association lists (`List (String × _)`) where key update
  keeps the original key position, as JS object spread does.
- JS truthiness of a string (empty string is falsy) is modelled explicitly
  where the source relies on it.
- Functions that can throw become `Except String` values; the message text
  mirrors the runtime error.
- React hook state (the `mounted` flag from the useState/useEffect pair,
  `isLoading`, the active tenant) is passed explicitly to the pure
  counterparts of the hooks.
-/

namespace RBAC

/-- The colon character used as the resource/action separator. -/
def colonChar : Char := ':'

/-- The single-quote character (code 39), used in the denial message text. -/
def squoteStr : String := String.singleton (Char.ofNat 39)

/-- The part of `s` before its first colon.  This is the first element of
the JavaScript `s.split(to colon)`: for a colon-free string it is the whole
string, for a string starting with a colon it is empty. -/
def beforeColon (s : String) : String :=
  String.mk (s.toList.takeWhile (fun c => !(c == colonChar)))

/-- Embedding of `checkPermission(heldPermissions, requiredPermission)`
from src/checkPermission.ts: global wildcard, then exact match, then
resource-scoped wildcard (guarded by JS truthiness of `resource`). -/
def checkPermission (held : List String) (required : String) : Bool :=
  if held.contains "*" then true
  else if held.contains required then true
  else
    let resource := beforeColon required
    if !(resource == "") && held.contains (resource ++ ":*") then true
    else false

/-- The denial message built by `guard` in src/guards.ts. -/
def deniedMessage (required : String) : String :=
  "[RBAC Shield] Access Denied: Missing permission " ++
    squoteStr ++ required ++ squoteStr

/-- Embedding of `guard(userPermissions, required, action)` from
src/guards.ts.  The wrapped action is modelled as `α → Except ε β` (an
`Except.error` is a thrown/rejected action); the wrapper either fails with
the denial message (`Sum.inl`) without consulting the action, or delegates
and forwards the result or failure (`Sum.inr`). -/
def guard {α β ε : Type} (userPermissions : List String) (required : String)
    (action : α → Except ε β) : α → Except (String ⊕ ε) β :=
  fun a =>
    if checkPermission userPermissions required then
      match action a with
      | Except.ok b => Except.ok b
      | Except.error e => Except.error (Sum.inr e)
    else
      Except.error (Sum.inl (deniedMessage required))

/-- The `default` entry of a handler object: JS `handlers.default`. -/
def handlersDefault {α : Type} (handlers : List (String × (Unit → α))) :
    Option (Unit → α) :=
  (handlers.find? (fun e => e.1 == "default")).map (fun e => e.2)

/-- The `for (const [permission, handler] of Object.entries(handlers))`
loop of `match` in src/guards.ts: skip the reserved "default" key, run the
first handler whose key passes `checkPermission`. -/
def matchScan {α : Type} (held : List String) :
    List (String × (Unit → α)) → Option α
  | [] => none
  | e :: rest =>
    if e.1 == "default" then matchScan held rest
    else if checkPermission held e.1 then some (e.2 ())
    else matchScan held rest

/-- Embedding of `match(userPermissions, handlers)` from src/guards.ts
(re-exported to the provider module as `matchPermission`).  Handlers are
the entries of the JS handler object in definition order; the `default`
key doubles as the fallback. -/
def matchPermission {α : Type} (held : List String)
    (handlers : List (String × (Unit → α))) : Option α :=
  match matchScan held handlers with
  | some r => some r
  | none =>
    match handlersDefault handlers with
    | some h => some (h ())
    | none => none

/-- A per-tenant record as built by `processTenants`: held roles and held
permissions.  The `map` field of the source (a record with key `p` set to
`true` for every `p` in `permissions`) is represented by the derived
lookup `tenantMapHas` below. -/
structure Tenant where
  roles : List String
  permissions : List String
deriving DecidableEq, Repr

/-- Lookup in the `map` record of a tenant: the record built by
`permissions.reduce((pMap, p) => ({...pMap, [p]: true}), {})` has key `p`
present (with value `true`) exactly when `p` occurs in `permissions`. -/
def tenantMapHas (t : Tenant) (p : String) : Bool :=
  t.permissions.contains p

/-- A requirement object `{roles?, permissions?}`; an absent array and an
empty array behave identically in the source (both fail the
`?.length` truthiness tests), so both are modelled as `[]`. -/
structure Requirements where
  roles : List String
  permissions : List String
deriving DecidableEq, Repr

/-- The `roleMatch` local of `checkAccess` in src/RBACProvider.tsx:
vacuously true for an empty requirement, else universal role wildcard,
else OR over the requested roles. -/
def roleMatchOf (t : Tenant) (roles : List String) : Bool :=
  if !roles.isEmpty then
    if t.roles.contains "*" then true
    else roles.any (fun r => t.roles.contains r)
  else true

/-- The `permMatch` local of `checkAccess` in src/RBACProvider.tsx:
vacuously true for an empty requirement, else global wildcard shortcut,
else AND or OR over the matcher according to `requireAll`. -/
def permMatchOf (t : Tenant) (perms : List String) (requireAll : Bool) : Bool :=
  if !perms.isEmpty then
    if t.permissions.contains "*" then true
    else if requireAll then perms.all (fun p => checkPermission t.permissions p)
    else perms.any (fun p => checkPermission t.permissions p)
  else true

/-- Embedding of `checkAccess(tenant, requirements, requireAll)` from
src/RBACProvider.tsx: compute the two category locals, then combine
(AND when both categories are requested, the single category otherwise,
`true` when neither is). -/
def checkAccess (t : Tenant) (req : Requirements)
    (requireAll : Bool := false) : Bool :=
  if !req.roles.isEmpty && !req.permissions.isEmpty then
    roleMatchOf t req.roles && permMatchOf t req.permissions requireAll
  else if !req.roles.isEmpty then roleMatchOf t req.roles
  else if !req.permissions.isEmpty then permMatchOf t req.permissions requireAll
  else true

/-- The provider state of src/RBACProvider.tsx: active tenant id (or
null), the tenant record (as an association list with JS object key
semantics), and the loading flag. -/
structure RBACState where
  activeTenantId : Option String
  tenants : List (String × Tenant)
  isLoading : Bool
deriving DecidableEq, Repr

/-- JS truthiness test for a nullable string: `null` and the empty string
are falsy. -/
def optFalsy (o : Option String) : Bool :=
  match o with
  | none => true
  | some s => s == ""

/-- `state.tenants[state.activeTenantId]` guarded by the JS truthiness of
the id, as every hook guards it: `some t` exactly when an active id is set,
is non-empty, and names a loaded tenant. -/
def getTenant (st : RBACState) : Option Tenant :=
  match st.activeTenantId with
  | none => none
  | some id =>
    if id == "" then none
    else (st.tenants.find? (fun e => e.1 == id)).map (fun e => e.2)

/-- A raw tenant-auth entry `{tenantId, roles?, permissions}` as it may
arrive at `setAuth`; `permissions` is optional here because a malformed
entry can omit it (the source then throws inside the reduce). -/
structure TenantAuthInput where
  tenantId : String
  roles : Option (List String)
  permissions : Option (List String)
deriving DecidableEq, Repr

/-- The input to `setAuth`, after the structural shape test of
`processTenants`: a flat string array (single-tenant mode) or an array of
tenant-auth records.  The JS test is `authInput.length === 0 ||
typeof authInput[0] === "string"`, so an empty JS array is always
classified as `flat []`. -/
inductive AuthInput where
  | flat (perms : List String)
  | records (items : List TenantAuthInput)
deriving DecidableEq, Repr

/-- JS object update `{...acc, [k]: v}`: an existing key keeps its
position and gets the new value; a new key is appended. -/
def recordSet (m : List (String × Tenant)) (k : String) (v : Tenant) :
    List (String × Tenant) :=
  if m.any (fun e => e.1 == k) then
    m.map (fun e => if e.1 == k then (k, v) else e)
  else m ++ [(k, v)]

/-- The reduce over the normalized `authArray` in `processTenants`:
`roles` defaults to `[]`, the `map` is rebuilt from `permissions`, and an
entry without `permissions` makes the reduce throw (calling `.reduce` on
`undefined`). -/
def processRecords (items : List TenantAuthInput) :
    Except String (List (String × Tenant)) :=
  items.foldlM
    (fun acc curr =>
      match curr.permissions with
      | none => Except.error "TypeError: cannot read reduce of undefined"
      | some perms =>
        Except.ok (recordSet acc curr.tenantId
          { roles := curr.roles.getD [], permissions := perms }))
    []

/-- Embedding of `processTenants(authInput)` from src/RBACProvider.tsx:
a flat string array is wrapped as the single tenant `"default"` with no
roles, then both shapes run the same reduce. -/
def processTenants : AuthInput → Except String (List (String × Tenant))
  | AuthInput.flat perms =>
    processRecords [{ tenantId := "default", roles := none,
                      permissions := some perms }]
  | AuthInput.records items => processRecords items

/-- Embedding of the `setAuth` callback of src/RBACProvider.tsx.

`captured` is the `state.activeTenantId` that the callback reads when it
computes `shouldAutoSwitch`: the callback is memoized with dependency list
`[log]`, so it closes over the state of the render in which it was
created — the provider-initial active tenant id (null unless hydrated),
not the active id current at call time.  The functional `setState` update
itself reads the current state, passed here as `prev`.

On success the tenant record is replaced wholesale, `isLoading` is
cleared, and the active id is switched to `"default"` exactly when the new
record has a `"default"` tenant and `captured` is falsy; on a
normalization failure the error is caught and logged, the previous state
is kept, and only `isLoading` is cleared. -/
def setAuth (captured : Option String) (input : AuthInput)
    (prev : RBACState) : RBACState :=
  match processTenants input with
  | Except.ok ts =>
    let shouldAutoSwitch := ts.any (fun e => e.1 == "default") && optFalsy captured
    { activeTenantId := if shouldAutoSwitch then some "default"
                        else prev.activeTenantId
      tenants := ts
      isLoading := false }
  | Except.error _ => { prev with isLoading := false }

/-- Embedding of `switchTenant(tenantId)`: set the active id
unconditionally. -/
def switchTenant (id : String) (prev : RBACState) : RBACState :=
  { prev with activeTenantId := some id }

/-- Embedding of `reset()`: back to the initial unauthenticated state. -/
def resetStore (_prev : RBACState) : RBACState :=
  { activeTenantId := none, tenants := [], isLoading := true }

/-- The initial state of a provider mounted without `initialData`. -/
def initState : RBACState :=
  { activeTenantId := none, tenants := [], isLoading := true }

/-- One store operation issued against the provider. -/
inductive StoreOp where
  | load (input : AuthInput)
  | switchTo (id : String)
  | resetOp
deriving DecidableEq, Repr

/-- Apply one store operation; `captured` is the provider-initial active
tenant id seen by the memoized `setAuth` closure. -/
def applyOp (captured : Option String) (st : RBACState) : StoreOp → RBACState
  | StoreOp.load input => setAuth captured input st
  | StoreOp.switchTo id => switchTenant id st
  | StoreOp.resetOp => resetStore st

/-- Run a sequence of store operations from the initial
(non-hydrated) state; for such a provider the `setAuth` closure captures
`initState.activeTenantId`, i.e. the `captured` argument. -/
def runOps (captured : Option String) (ops : List StoreOp) : RBACState :=
  ops.foldl (applyOp captured) initState

/-- Embedding of the `useHasRole(role)` hook: fail closed unless mounted,
loaded, and an active tenant is resolvable; then a single-role
`checkAccess`. -/
def useHasRole (mounted : Bool) (st : RBACState) (role : String) : Bool :=
  if !mounted || st.isLoading then false
  else
    match getTenant st with
    | none => false
    | some t => checkAccess t { roles := [role], permissions := [] }

/-- Embedding of the `useHasPermission(permission)` hook: fail closed
unless mounted, loaded, and an active tenant is resolvable; then a
single-permission `checkAccess`. -/
def useHasPermission (mounted : Bool) (st : RBACState) (p : String) : Bool :=
  if !mounted || st.isLoading then false
  else
    match getTenant st with
    | none => false
    | some t => checkAccess t { roles := [], permissions := [p] }

/-- Embedding of the `useHasAnyPermission(permissions)` hook: fail closed
in the unresolved states, then global-wildcard shortcut on the lookup map
followed by OR over exact map membership. -/
def useHasAnyPermission (mounted : Bool) (st : RBACState)
    (perms : List String) : Bool :=
  if !mounted || st.isLoading then false
  else
    match getTenant st with
    | none => false
    | some t =>
      if tenantMapHas t "*" then true
      else perms.any (fun p => tenantMapHas t p)

/-- Embedding of the `useHasAllPermissions(permissions)` hook: fail closed
in the unresolved states, then global-wildcard shortcut on the lookup map
followed by AND over exact map membership. -/
def useHasAllPermissions (mounted : Bool) (st : RBACState)
    (perms : List String) : Bool :=
  if !mounted || st.isLoading then false
  else
    match getTenant st with
    | none => false
    | some t =>
      if tenantMapHas t "*" then true
      else perms.all (fun p => tenantMapHas t p)

/-- Embedding of the callable returned by the `useAccess` hook: in the
unresolved states an empty requirement passes and anything else fails;
otherwise delegate to `checkAccess` (with its default `requireAll`). -/
def useAccess (mounted : Bool) (st : RBACState) (req : Requirements) : Bool :=
  if !mounted || st.isLoading then
    if req.roles.isEmpty && req.permissions.isEmpty then true else false
  else
    match getTenant st with
    | none =>
      if req.roles.isEmpty && req.permissions.isEmpty then true else false
    | some t => checkAccess t req

/-- Embedding of the `usePermissionMatch(handlers)` hook: when mounted
with a resolvable active tenant, delegate to the stateless dispatcher over
that tenant permissions; otherwise run the default handler if present
(note the source does not consult `isLoading` here). -/
def usePermissionMatch {α : Type} (mounted : Bool) (st : RBACState)
    (handlers : List (String × (Unit → α))) : Option α :=
  match mounted, getTenant st with
  | true, some t => matchPermission t.permissions handlers
  | _, _ =>
    match handlersDefault handlers with
    | some h => some (h ())
    | none => none

/-- A mounted, loaded state whose active tenant holds exactly the
resource wildcard "billing:*" — the state used to separate the matcher
from the exact-membership bulk checks. -/
def billingState : RBACState :=
  { activeTenantId := some "default",
    tenants := [("default", { roles := [], permissions := ["billing:*"] })],
    isLoading := false }

/-- Any held permission is granted once the list holds the global
wildcard: the first branch of `checkPermission` fires. -/
theorem checkPermission_star (held : List String) (p : String)
    (h : held.contains "*" = true) : checkPermission held p = true := by
  unfold checkPermission
  rw [h]
  simp

/-- Bridging lemma between the decidable list-emptiness proposition and
the Bool `List.isEmpty` used by the source embedding. -/
theorem decide_nil_eq_isEmpty (l : List String) :
    decide (l = []) = l.isEmpty := by
  cases l <;> simp

/-- The handler loop of the dispatcher returns exactly the first entry
whose key is not the reserved "default" and passes the matcher. -/
theorem matchScan_eq_find {α : Type} (held : List String)
    (handlers : List (String × (Unit → α))) :
    matchScan held handlers =
      (handlers.find?
        (fun e => !(e.1 == "default") && checkPermission held e.1)).map
        (fun e => e.2 ()) := by
  induction handlers with
  | nil => rfl
  | cons e rest ih =>
    by_cases hd : e.1 = "default"
    · have hb : (e.1 == "default") = true := beq_iff_eq.mpr hd
      simp [matchScan, List.find?, hb, ih]
    · have hb : (e.1 == "default") = false := beq_eq_false_iff_ne.mpr hd
      by_cases hc : checkPermission held e.1 = true
      · simp [matchScan, List.find?, hb, hc]
      · simp [matchScan, List.find?, hb, hc, ih]

/-- Claim C1, counterexample: for the colon-free required string "abc"
and held list ["abc:*"], the matcher grants access even though the held
list has neither the global wildcard nor an exact match — the JS
`split` of a colon-free string yields the whole string as the resource,
not the empty string, so the resource-wildcard step does match. -/
theorem checkPermission_no_colon_wildcard :
    checkPermission ["abc:*"] "abc" = true ∧
    ("abc".toList.contains ':') = false ∧
    (["abc:*"] : List String).contains "*" = false ∧
    (["abc:*"] : List String).contains "abc" = false := by
  decide

/-- Claim C1, amended: the matcher returns true iff the held list has the
global wildcard, or the required string verbatim, or the resource — the
part of the required string before its first colon, which is the whole
string when it has no colon — is non-empty and the held list has
"<resource>:*".  In particular, for a colon-free non-empty required
string r, a held "r:*" also grants. -/
theorem checkPermission_matches_iff (held : List String) (required : String) :
    checkPermission held required = true ↔
      "*" ∈ held ∨ required ∈ held ∨
        (beforeColon required ≠ "" ∧ (beforeColon required ++ ":*") ∈ held) := by
  unfold checkPermission
  split_ifs <;> simp_all

/-- Claim C2: `checkAccess` combines the two categories with a strict AND
when both requirements are non-empty (whatever `requireAll` is), returns
the single category result when only one is non-empty, and returns true
when neither category has a requirement. -/
theorem checkAccess_combination (t : Tenant) (req : Requirements) (b : Bool) :
    (req.roles ≠ [] → req.permissions ≠ [] →
      checkAccess t req b =
        (roleMatchOf t req.roles && permMatchOf t req.permissions b)) ∧
    (req.roles ≠ [] → req.permissions = [] →
      checkAccess t req b = roleMatchOf t req.roles) ∧
    (req.roles = [] → req.permissions ≠ [] →
      checkAccess t req b = permMatchOf t req.permissions b) ∧
    (req.roles = [] → req.permissions = [] → checkAccess t req b = true) := by
  obtain ⟨roles, perms⟩ := req
  cases roles <;> cases perms <;>
    refine ⟨?_, ?_, ?_, ?_⟩ <;> intro h1 h2 <;> simp_all [checkAccess]

/-- Claim C2, witness: the spec example — tenant {roles: ["admin"],
permissions: ["a:view"]} against {roles: ["admin"], permissions:
["b:view"]} — is an instance of the strict AND across categories, and it
evaluates to false even though the role category alone passes. -/
theorem checkAccess_combination_example :
    checkAccess { roles := ["admin"], permissions := ["a:view"] }
        { roles := ["admin"], permissions := ["b:view"] } false =
      (roleMatchOf { roles := ["admin"], permissions := ["a:view"] } ["admin"] &&
        permMatchOf { roles := ["admin"], permissions := ["a:view"] }
          ["b:view"] false) ∧
    checkAccess { roles := ["admin"], permissions := ["a:view"] }
        { roles := ["admin"], permissions := ["b:view"] } false = false := by
  refine ⟨?_, by decide⟩
  exact (checkAccess_combination
    { roles := ["admin"], permissions := ["a:view"] }
    { roles := ["admin"], permissions := ["b:view"] } false).1
    (by decide) (by decide)

/-- Claim C3: for non-empty requirement lists, role satisfaction is the
universal role wildcard OR any requested role held (never affected by
`requireAll`), while permission satisfaction is AND over the matcher when
`requireAll` is true and OR over the matcher when it is false (the global
wildcard shortcut of the source agrees with the matcher on every
permission). -/
theorem checkAccess_category_semantics (t : Tenant) (roles perms : List String)
    (hr : roles ≠ []) (hp : perms ≠ []) :
    roleMatchOf t roles =
      (t.roles.contains "*" || roles.any (fun r => t.roles.contains r)) ∧
    permMatchOf t perms true =
      perms.all (fun p => checkPermission t.permissions p) ∧
    permMatchOf t perms false =
      perms.any (fun p => checkPermission t.permissions p) := by
  refine ⟨?_, ?_, ?_⟩
  · cases roles with
    | nil => exact absurd rfl hr
    | cons a l =>
      unfold roleMatchOf
      cases h : t.roles.contains "*" <;> simp [h]
  · cases perms with
    | nil => exact absurd rfl hp
    | cons a l =>
      unfold permMatchOf
      cases h : t.permissions.contains "*"
      · simp [h]
      · have hall : ∀ p ∈ a :: l, checkPermission t.permissions p = true :=
          fun p _ => checkPermission_star t.permissions p h
        simp [h, List.all_eq_true.mpr hall]
  · cases perms with
    | nil => exact absurd rfl hp
    | cons a l =>
      unfold permMatchOf
      cases h : t.permissions.contains "*"
      · simp [h]
      · have hany :
            (a :: l).any (fun p => checkPermission t.permissions p) = true :=
          List.any_eq_true.mpr
            ⟨a, List.mem_cons_self a l, checkPermission_star t.permissions a h⟩
        simp [h, hany]

/-- Claim C3, witness: the spec example — a tenant holding only "a:view"
asked for ["a:view", "a:edit"] — satisfies the AND form with requireAll
set exactly when every item passes the matcher, which here evaluates to
false, while the OR form evaluates to true. -/
theorem checkAccess_category_example :
    permMatchOf { roles := [], permissions := ["a:view"] }
        ["a:view", "a:edit"] true =
      (["a:view", "a:edit"] : List String).all
        (fun p => checkPermission ["a:view"] p) ∧
    permMatchOf { roles := [], permissions := ["a:view"] }
        ["a:view", "a:edit"] true = false ∧
    permMatchOf { roles := [], permissions := ["a:view"] }
        ["a:view", "a:edit"] false = true := by
  refine ⟨?_, by decide, by decide⟩
  exact (checkAccess_category_semantics
    { roles := [], permissions := ["a:view"] } ["admin"]
    ["a:view", "a:edit"] (by decide) (by decide)).2.1

/-- Claim C4, counterexample: normalizing the empty sequence does not
produce zero tenants — the flat-string branch wraps it as the single
tenant "default" with an empty permission list, so the tenants mapping
after such a load is non-empty. -/
theorem processTenants_empty_not_zero :
    (setAuth none (AuthInput.flat []) initState).tenants =
      [("default", { roles := [], permissions := [] })] ∧
    ¬ (setAuth none (AuthInput.flat []) initState).tenants = [] := by
  refine ⟨by decide, by decide⟩

/-- Claim C4, amended: an empty input sequence is treated as the
flat-string-list shape, and the normalized result contains exactly one
tenant, "default", with empty roles and permissions; after such a load
the tenants mapping is exactly that single entry. -/
theorem processTenants_empty_default :
    processTenants (AuthInput.flat []) =
      Except.ok [("default", { roles := [], permissions := [] })] ∧
    (setAuth none (AuthInput.flat []) initState).tenants =
      [("default", { roles := [], permissions := [] })] := by
  exact ⟨rfl, by decide⟩

/-- Claim C5: evaluation of the store at the failing operation sequence.
On a provider created without initialData, after switchTenant("t1") a
flat load still auto-switches the active tenant to "default", because the
memoized setAuth closure tests the provider-initial active id (null)
rather than the id active at call time; the claim, by contrast, keeps
"t1".  The last two conjuncts record that the two single-load examples of
the claim do hold. -/
theorem setAuth_stale_auto_switch :
    (runOps none [StoreOp.switchTo "t1",
        StoreOp.load (AuthInput.flat ["x:view"])]).activeTenantId =
      some "default" ∧
    ¬ (runOps none [StoreOp.switchTo "t1",
        StoreOp.load (AuthInput.flat ["x:view"])]).activeTenantId =
      some "t1" ∧
    useHasPermission true
      (runOps none [StoreOp.load (AuthInput.flat ["x:view"])]) "x:view" =
      true ∧
    useHasPermission true
      (runOps none [StoreOp.load (AuthInput.records
        [{ tenantId := "t1", roles := none,
           permissions := some ["x:view"] }])]) "x:view" = false := by
  decide

/-- Claim C6: whenever the store is loading, or no tenant is active, or
the active id resolves to no loaded tenant, every enumerated reactive
query returns false — except the free-form requirement check, which
returns true exactly when both requirement lists are empty. -/
theorem queries_fail_closed (mounted : Bool) (st : RBACState) (role p : String)
    (perms : List String) (req : Requirements)
    (h : st.isLoading = true ∨ getTenant st = none) :
    useHasRole mounted st role = false ∧
    useHasPermission mounted st p = false ∧
    useHasAnyPermission mounted st perms = false ∧
    useHasAllPermissions mounted st perms = false ∧
    useAccess mounted st req = (req.roles.isEmpty && req.permissions.isEmpty) := by
  rcases h with hL | hG
  · refine ⟨?_, ?_, ?_, ?_, ?_⟩ <;>
      simp [useHasRole, useHasPermission, useHasAnyPermission,
        useHasAllPermissions, useAccess, hL, decide_nil_eq_isEmpty]
  · cases hm : mounted <;> cases hl : st.isLoading <;>
      refine ⟨?_, ?_, ?_, ?_, ?_⟩ <;>
        simp [useHasRole, useHasPermission, useHasAnyPermission,
          useHasAllPermissions, useAccess, hG, hl, decide_nil_eq_isEmpty]

/-- Claim C6, witness: in the initial state (loading, no active tenant)
all four boolean queries are false and the free-form check of a non-empty
requirement is false as well. -/
theorem queries_fail_closed_example :
    useHasRole true initState "admin" = false ∧
    useHasPermission true initState "a:view" = false ∧
    useHasAnyPermission true initState ["a:view"] = false ∧
    useHasAllPermissions true initState ["a:view"] = false ∧
    useAccess true initState { roles := ["admin"], permissions := [] } =
      ((["admin"] : List String).isEmpty && ([] : List String).isEmpty) :=
  queries_fail_closed true initState "admin" "a:view" ["a:view"]
    { roles := ["admin"], permissions := [] } (Or.inl rfl)

/-- Claim C7: setAuth is total on every input of the model (including
records with a missing permissions array, on which normalization throws
inside the reduce); every call ends with isLoading cleared, and a failed
normalization leaves both the tenants mapping and the active id exactly
as they were before the call. -/
theorem setAuth_failure_safe (captured : Option String) (input : AuthInput)
    (prev : RBACState) :
    (setAuth captured input prev).isLoading = false ∧
    (∀ e, processTenants input = Except.error e →
      (setAuth captured input prev).tenants = prev.tenants ∧
      (setAuth captured input prev).activeTenantId = prev.activeTenantId) := by
  unfold setAuth
  cases h : processTenants input <;> simp [h]

/-- Claim C7, witness: loading a record without a permissions array over
a non-trivial prior state clears isLoading and keeps the prior tenants. -/
theorem setAuth_failure_safe_example :
    (setAuth none
      (AuthInput.records
        [{ tenantId := "t1", roles := none, permissions := none }])
      { activeTenantId := some "t0",
        tenants := [("t0", { roles := ["admin"], permissions := ["a:view"] })],
        isLoading := true }).isLoading = false ∧
    (setAuth none
      (AuthInput.records
        [{ tenantId := "t1", roles := none, permissions := none }])
      { activeTenantId := some "t0",
        tenants := [("t0", { roles := ["admin"], permissions := ["a:view"] })],
        isLoading := true }).tenants =
      [("t0", { roles := ["admin"], permissions := ["a:view"] })] := by
  have h := setAuth_failure_safe none
    (AuthInput.records
      [{ tenantId := "t1", roles := none, permissions := none }])
    { activeTenantId := some "t0",
      tenants := [("t0", { roles := ["admin"], permissions := ["a:view"] })],
      isLoading := true }
  exact ⟨h.1, (h.2 "TypeError: cannot read reduce of undefined" rfl).1⟩

/-- Claim C8: the callable returned by guard fails with the access-denied
message exactly when the matcher rejects — in that case the result does
not depend on the wrapped action at all, and the message contains the
literal required permission string — and delegates to the action and
forwards its result or failure when the matcher accepts. -/
theorem guard_access_control {α β ε : Type} (held : List String)
    (required : String) (action : α → Except ε β) (a : α) :
    (checkPermission held required = false →
      guard held required action a =
        Except.error (Sum.inl (deniedMessage required)) ∧
      (∀ action2 : α → Except ε β,
        guard held required action2 a = guard held required action a) ∧
      ∃ pre post, deniedMessage required = pre ++ required ++ post) ∧
    (checkPermission held required = true →
      guard held required action a = Except.mapError Sum.inr (action a)) := by
  constructor
  · intro hf
    refine ⟨?_, ?_, ?_⟩
    · simp [guard, hf]
    · intro action2
      simp [guard, hf]
    · exact ⟨"[RBAC Shield] Access Denied: Missing permission " ++ squoteStr,
        squoteStr, rfl⟩
  · intro ht
    cases hact : action a <;> simp [guard, ht, hact, Except.mapError]

/-- Claim C8, witness: denying permissions ["a:view"] for requirement
"a:delete" produces exactly the denial error without consulting the
action, and holding "a:delete" delegates to the action. -/
theorem guard_access_control_example :
    checkPermission ["a:view"] "a:delete" = false ∧
    guard ["a:view"] "a:delete"
        (fun n : Nat => (Except.ok n : Except String Nat)) 0 =
      Except.error (Sum.inl (deniedMessage "a:delete")) ∧
    checkPermission ["a:delete"] "a:delete" = true ∧
    guard ["a:delete"] "a:delete"
        (fun n : Nat => (Except.ok n : Except String Nat)) 0 =
      Except.mapError Sum.inr
        ((fun n : Nat => (Except.ok n : Except String Nat)) 0) := by
  refine ⟨by decide, ?_, by decide, ?_⟩
  · exact ((guard_access_control ["a:view"] "a:delete"
      (fun n : Nat => (Except.ok n : Except String Nat)) 0).1 (by decide)).1
  · exact (guard_access_control ["a:delete"] "a:delete"
      (fun n : Nat => (Except.ok n : Except String Nat)) 0).2 (by decide)

/-- Claim C9: the stateless dispatcher returns the result of the first
handler, in entry order, whose key is not the reserved "default" and
passes the matcher; when no key matches it runs the "default" handler when
present and otherwise produces no result.  The hook counterpart, on a
mounted state with a resolvable active tenant, is exactly the stateless
dispatcher applied to that tenant permission list. -/
theorem match_first_semantics {α : Type} (held : List String)
    (handlers : List (String × (Unit → α))) (mounted : Bool)
    (st : RBACState) (t : Tenant) :
    (matchPermission held handlers =
      (match handlers.find?
          (fun e => !(e.1 == "default") && checkPermission held e.1) with
       | some e => some (e.2 ())
       | none =>
         match handlersDefault handlers with
         | some h => some (h ())
         | none => none)) ∧
    (mounted = true → getTenant st = some t →
      usePermissionMatch mounted st handlers =
        matchPermission t.permissions handlers) := by
  constructor
  · unfold matchPermission
    rw [matchScan_eq_find]
    cases h : handlers.find?
        (fun e => !(e.1 == "default") && checkPermission held e.1) <;>
      simp
  · intro hm hg
    subst hm
    simp [usePermissionMatch, hg]

/-- Claim C9, witness: the spec example — handlers for "a:view" and
"b:view" plus a default, held permissions ["b:view"] — dispatches to the
"b:view" handler (result 2), not to the default. -/
theorem match_first_example :
    usePermissionMatch true
      { activeTenantId := some "t",
        tenants := [("t", { roles := [], permissions := ["b:view"] })],
        isLoading := false }
      [("a:view", fun _ => (1 : Nat)), ("default", fun _ => 7),
        ("b:view", fun _ => 2)] =
      matchPermission ["b:view"]
        [("a:view", fun _ => (1 : Nat)), ("default", fun _ => 7),
          ("b:view", fun _ => 2)] ∧
    matchPermission ["b:view"]
      [("a:view", fun _ => (1 : Nat)), ("default", fun _ => 7),
        ("b:view", fun _ => 2)] = some 2 := by
  refine ⟨?_, rfl⟩
  exact (match_first_semantics ["b:view"]
    [("a:view", fun _ => (1 : Nat)), ("default", fun _ => 7),
      ("b:view", fun _ => 2)] true
    { activeTenantId := some "t",
      tenants := [("t", { roles := [], permissions := ["b:view"] })],
      isLoading := false }
    { roles := [], permissions := ["b:view"] }).2 rfl rfl

/-- Claim C10: the bulk checks decide each listed permission by exact
membership in the lookup map of the active tenant, honoring only the
global wildcard entry; hence, for a mounted and loaded tenant holding
exactly ["billing:*"], the single check passes for "billing:view" while
both bulk checks fail for it, the all-check of the empty list is
vacuously true, and the any-check of the empty list is false. -/
theorem bulk_checks_exact_membership :
    (∀ (t : Tenant) (ps : List String),
      useHasAnyPermission true
          { activeTenantId := some "t", tenants := [("t", t)],
            isLoading := false } ps =
        (tenantMapHas t "*" || ps.any (fun p => tenantMapHas t p)) ∧
      useHasAllPermissions true
          { activeTenantId := some "t", tenants := [("t", t)],
            isLoading := false } ps =
        (tenantMapHas t "*" || ps.all (fun p => tenantMapHas t p))) ∧
    useHasPermission true billingState "billing:view" = true ∧
    useHasAnyPermission true billingState ["billing:view"] = false ∧
    useHasAllPermissions true billingState ["billing:view"] = false ∧
    useHasAllPermissions true billingState [] = true ∧
    useHasAnyPermission true billingState [] = false := by
  refine ⟨?_, by decide, by decide, by decide, by decide, by decide⟩
  intro t ps
  have hg :
      getTenant
        { activeTenantId := some "t", tenants := [("t", t)], isLoading := false }
        = some t := rfl
  constructor
  · simp only [useHasAnyPermission, hg]
    cases h : tenantMapHas t "*" <;> simp [h]
  · simp only [useHasAllPermissions, hg]
    cases h : tenantMapHas t "*" <;> simp [h]

end RBAC
